import Mathlib

/-!
Shallow embedding of the Smart-Traffic-Light lane controllers.

Sources embedded:
- `src/esp32_arduino_ide/esp32_lane3/esp32_lane3.ino` (namespace `Lane3`):
  fuzzy membership functions, rush-hour predicate, defuzzification, the MQTT
  message callback and the main control loop of the lane-3 controller.
- `src/esp1_lane1.cpp` (namespace `Lane1`): rush-hour predicate and the
  green-request handler of the lane-1 controller.
- the standalone four-lane console simulation source (namespace `Sim`):
  its membership functions and rush-hour predicate.

Modelling conventions: C `float` is modelled as `ℚ`; C `int` as `ℤ`;
`unsigned long` milliseconds as `ℕ`.  Timestamp strings of the form
"YYYY-MM-DD HH:MM:SS" are modelled as a record of day index, hour, minute
and second (the code parses only the hour and the minute substrings).
One iteration of the Arduino `loop` is a function from the pre-state plus
the lists of MQTT messages serviced during its two message-pumping windows
(the permission wait and the green countdown) to the post-state and the
list of published messages.
-/

/-- A wall-clock timestamp "YYYY-MM-DD HH:MM:SS"; `day` is an absolute day
index standing for the date part. -/
structure TS where
  day : ℕ
  hour : ℕ
  minute : ℕ
  sec : ℕ
deriving DecidableEq

/-- Total minutes represented by a timestamp, date part included.  Used to
state what "older than n minutes" genuinely means. -/
def totalMinutes (t : TS) : ℤ :=
  ((t.day : ℤ) * 24 + (t.hour : ℤ)) * 60 + (t.minute : ℤ)

/-- True age in minutes of a message timestamp relative to the current time. -/
def ageMinutes (msgT now : TS) : ℤ :=
  totalMinutes now - totalMinutes msgT

/-- The three output pins of one traffic light (struct TrafficLight). -/
structure TrafficLight where
  red : Bool
  yellow : Bool
  green : Bool
deriving DecidableEq

/-- Parsed inbound MQTT messages, one constructor per subscribed topic. -/
inductive Msg where
  | vehicleCountMsg (road_section_id total_vehicles : ℤ) (timestamp : Option TS)
  | greenStatus (sectionId : ℤ) (status : String)
  | greenRequest (sectionId : ℤ) (data_received_time : ℕ)
  | greenPermission (sectionId : ℤ) (permission : String)
  | resetMsg (command : String)
  | nextLaneReady (next_expected_section from_lane : ℤ)
  | countdownSync (lane_id remaining_seconds : ℤ) (source : String)
deriving DecidableEq

/-- Messages published by a controller, one constructor per topic. -/
inductive OutMsg where
  | durationMsg (road_section_id total_vehicles : ℤ) (duration : ℚ) (timestamp : Option TS)
  | greenStatusOut (sectionId : ℤ) (status : String)
  | greenRequestOut (sectionId : ℤ) (data_received_time : ℕ)
  | greenPermissionOut (sectionId from_section : ℤ)
  | nextLaneReadyOut (next_expected_section from_lane : ℤ)
  | countdownSyncOut (lane_id : ℤ) (remaining_seconds : ℕ)
deriving DecidableEq

/-- Does an output message announce a green status (entering GREEN)? -/
def isGreenOn : OutMsg → Bool
  | OutMsg.greenStatusOut _ st => st == "green"
  | _ => false

/-- Is an output message a green request broadcast? -/
def isGreenRequestOut : OutMsg → Bool
  | OutMsg.greenRequestOut _ _ => true
  | _ => false

namespace Lane3

/-- Lane identity of the lane-3 controller (`const int LANE_ID = 3`). -/
def LANE_ID : ℤ := 3

/-- Road section identity (`const int ROAD_SECTION_ID = 3`). -/
def ROAD_SECTION_ID : ℤ := 3

/-- `int getNextSection(int current) { return (current % 4) + 1; }` -/
def getNextSection (current : ℤ) : ℤ :=
  current % 4 + 1

/-- Membership function "sedikit" (low density) of the lane controllers. -/
def sedikit (x : ℚ) : ℚ :=
  if x ≤ 3 then 1
  else if 3 < x ∧ x < 5 then (5 - x) / 2
  else 0

/-- Membership function "sedang" (medium density) of the lane controllers. -/
def sedang (x : ℚ) : ℚ :=
  if x ≤ 3 ∨ 10 ≤ x then 0
  else if 3 < x ∧ x ≤ 5 then (x - 3) / 2
  else if 5 < x ∧ x < 10 then (10 - x) / 5
  else 0

/-- Membership function "padat" (high density) of the lane controllers. -/
def padat (x : ℚ) : ℚ :=
  if x ≤ 5 then 0
  else if 5 < x ∧ x < 10 then (x - 5) / 5
  else 1

/-- Rush-hour predicate of the lane-3 controller:
`(jam >= 7 && jam <= 9) || (jam >= 17 && jam <= 19)`. -/
def isJamSibuk (jam : ℤ) : Bool :=
  decide ((7 ≤ jam ∧ jam ≤ 9) ∨ (17 ≤ jam ∧ jam ≤ 19))

/-- Base duration `durasi_pendek` as a function of the rush-hour flag. -/
def durasi_pendek (jamSibuk : Bool) : ℚ :=
  if jamSibuk then 15 else 10

/-- Base duration `durasi_sedang` as a function of the rush-hour flag. -/
def durasi_sedang (jamSibuk : Bool) : ℚ :=
  if jamSibuk then 30 else 20

/-- Base duration `durasi_lama` as a function of the rush-hour flag. -/
def durasi_lama (jamSibuk : Bool) : ℚ :=
  if jamSibuk then 60 else 40

/-- Centroid defuzzification of the lane controllers (`float defuzzify`). -/
def defuzzify (kendaraan : ℚ) (jamSibuk : Bool) : ℚ :=
  let mu_sedikit := sedikit kendaraan
  let mu_sedang := sedang kendaraan
  let mu_padat := padat kendaraan
  let numerator := mu_sedikit * durasi_pendek jamSibuk +
    mu_sedang * durasi_sedang jamSibuk + mu_padat * durasi_lama jamSibuk
  let denominator := mu_sedikit + mu_sedang + mu_padat
  if denominator = 0 then (if jamSibuk then 30 else 20)
  else numerator / denominator

/-- The weighted-centroid formula of the specification, written from the
spec's words for comparison with `defuzzify`. -/
def weightedCentroid (c : ℚ) (r : Bool) : ℚ :=
  (sedikit c * durasi_pendek r + sedang c * durasi_sedang r + padat c * durasi_lama r) /
    (sedikit c + sedang c + padat c)

/-- `struct MqttData` of the lane-3 controller. -/
structure MqttData where
  road_section_id : ℤ
  total_vehicles : ℤ
  timestamp : Option TS
  new_data : Bool
  duration_published : Bool
  green_request_sent : Bool
  data_received_time : ℕ
deriving DecidableEq

/-- The mutable globals of the lane-3 controller gathered into one record. -/
structure State where
  vehicleCount : ℚ
  lastReceivedData : MqttData
  currentGreenSection : ℤ
  greenLightRequested : Bool
  waitingForGreenPermission : Bool
  nextExpectedSection : ℤ
  light : TrafficLight
deriving DecidableEq

/-- The state `resetAllData()` produces: counters cleared, coordination
variables reinitialized, light red. -/
def resetState : State :=
  { vehicleCount := 0
    lastReceivedData :=
      { road_section_id := 0, total_vehicles := 0, timestamp := none
        new_data := false, duration_published := false
        green_request_sent := false, data_received_time := 0 }
    currentGreenSection := 0
    greenLightRequested := false
    waitingForGreenPermission := false
    nextExpectedSection := 1
    light := { red := true, yellow := false, green := false } }

/-- The staleness comparison of the vehicle-count handler: difference of the
hour-and-minute fields of the two timestamps, plus a day if negative.  The
date and seconds parts of the timestamps are not consulted by the code. -/
def timeDiffMinutes (msgT now : TS) : ℤ :=
  let d := ((now.hour : ℤ) * 60 + (now.minute : ℤ)) -
    ((msgT.hour : ℤ) * 60 + (msgT.minute : ℤ))
  if d < 0 then d + 24 * 60 else d

/-- The staleness test is applied only when the message carries a timestamp. -/
def isStaleB (t : Option TS) (now : TS) : Bool :=
  match t with
  | some msgT => decide (timeDiffMinutes msgT now > 2)
  | none => false

/-- Handler of topic `traffic/vehicle_count`: lane filter, staleness check,
duplicate check, then acceptance of the observation. -/
def handleVehicleCount (now : TS) (ms : ℕ) (rid tv : ℤ) (t : Option TS)
    (s : State) : State × List OutMsg :=
  if rid ≠ ROAD_SECTION_ID then (s, [])
  else if isStaleB t now then (s, [])
  else if s.lastReceivedData.total_vehicles = tv ∧
      s.lastReceivedData.road_section_id = rid ∧
      s.lastReceivedData.timestamp = t ∧
      s.lastReceivedData.new_data = true then (s, [])
  else
    ({ s with
        vehicleCount := (tv : ℚ)
        lastReceivedData :=
          { road_section_id := rid, total_vehicles := tv
            timestamp := some (t.getD now)
            new_data := true, duration_published := false
            green_request_sent := false, data_received_time := ms } }, [])

/-- Handler of topic `traffic/green_status`. -/
def handleGreenStatus (sectionId : ℤ) (status : String) (s : State) :
    State × List OutMsg :=
  if status = "green" then
    ({ s with currentGreenSection := sectionId }, [])
  else if status = "red" ∧ s.currentGreenSection = sectionId then
    ({ s with currentGreenSection := 0
              nextExpectedSection := getNextSection sectionId }, [])
  else (s, [])

/-- Handler of topic `traffic/green_request`.  `should_grant` starts as
"requester is the expected section" and is revoked when this node itself has
pending data, vehicles and the turn. -/
def handleGreenRequest (requesting_section : ℤ) (s : State) :
    State × List OutMsg :=
  if s.currentGreenSection = 0 then
    if requesting_section = s.nextExpectedSection ∧
        ¬ (s.lastReceivedData.new_data = true ∧ 0 < s.vehicleCount ∧
           ROAD_SECTION_ID = s.nextExpectedSection) then
      (s, [OutMsg.greenPermissionOut requesting_section ROAD_SECTION_ID])
    else (s, [])
  else (s, [])

/-- Handler of topic `traffic/green_permission`. -/
def handleGreenPermission (sectionId : ℤ) (permission : String) (s : State) :
    State × List OutMsg :=
  if sectionId = ROAD_SECTION_ID ∧ permission = "granted" then
    ({ s with waitingForGreenPermission := false }, [])
  else (s, [])

/-- Handler of topic `traffic/reset`; the command arrives already trimmed
and lowercased by the code. -/
def handleReset (command : String) (s : State) : State × List OutMsg :=
  if command = "true" ∨ command = "1" ∨ command = "reset" then
    (resetState, [])
  else (s, [])

/-- Handler of topic `traffic/next_lane_ready`: adopt the broadcast value,
and when this node is the announced next lane, force-activate processing. -/
def handleNextLaneReady (ms : ℕ) (nextExpected fromLane : ℤ) (s : State) :
    State × List OutMsg :=
  let s1 := { s with nextExpectedSection := nextExpected }
  if ROAD_SECTION_ID = nextExpected then
    ({ s1 with
        lastReceivedData :=
          { s1.lastReceivedData with
              new_data := true, duration_published := false
              green_request_sent := false, data_received_time := ms }
        vehicleCount := if s1.vehicleCount < 0 then 0 else s1.vehicleCount }, [])
  else (s1, [])

/-- The MQTT callback of the lane-3 controller, dispatching on topic. -/
def mqtt_callback (now : TS) (ms : ℕ) : Msg → State → State × List OutMsg
  | Msg.vehicleCountMsg rid tv t, s => handleVehicleCount now ms rid tv t s
  | Msg.greenStatus sec st, s => handleGreenStatus sec st s
  | Msg.greenRequest sec _, s => handleGreenRequest sec s
  | Msg.greenPermission sec p, s => handleGreenPermission sec p s
  | Msg.resetMsg c, s => handleReset c s
  | Msg.nextLaneReady n f, s => handleNextLaneReady ms n f s
  | Msg.countdownSync _ _ _, s => (s, [])

/-- Servicing a sequence of inbound messages (`mqtt_client.loop()` calls). -/
def processMsgs (now : TS) (ms : ℕ) : List Msg → State → State × List OutMsg
  | [], s => (s, [])
  | m :: rest, s =>
    let r1 := mqtt_callback now ms m s
    let r2 := processMsgs now ms rest r1.1
    (r2.1, r1.2 ++ r2.2)

/-- Countdown-sync messages published by `countdownTimer(n)`: one for each
second `i = n, …, 1` with `i % 2 == 0 || i <= 3`. -/
def countdownSyncs : ℕ → List OutMsg
  | 0 => []
  | n + 1 =>
    (if (n + 1) % 2 = 0 ∨ n + 1 ≤ 3 then
      [OutMsg.countdownSyncOut LANE_ID (n + 1)] else []) ++ countdownSyncs n

/-- The data-timeout guard at the top of `loop`: after two minutes the
data flags are cleared. -/
def dataTimeoutCheck (ms : ℕ) (s : State) : State :=
  if ms - s.lastReceivedData.data_received_time > 120000 then
    { s with lastReceivedData :=
        { s.lastReceivedData with
            new_data := false, duration_published := false
            green_request_sent := false } }
  else s

/-- The duration publication (at most once per accepted observation). -/
def durationOut (duration : ℚ) (s : State) : List OutMsg :=
  if s.lastReceivedData.duration_published then []
  else [OutMsg.durationMsg s.lastReceivedData.road_section_id
          s.lastReceivedData.total_vehicles duration
          s.lastReceivedData.timestamp]

/-- State after marking the duration as published. -/
def afterDurationPublish (s : State) : State :=
  if s.lastReceivedData.duration_published then s
  else { s with lastReceivedData :=
      { s.lastReceivedData with duration_published := true } }

/-- State right after the optimistic claim and the green request broadcast:
`currentGreenSection = ROAD_SECTION_ID`, request flags raised,
`green_request_sent` marked. -/
def requestPhase (s : State) : State :=
  { s with
      currentGreenSection := ROAD_SECTION_ID
      greenLightRequested := true
      waitingForGreenPermission := true
      lastReceivedData := { s.lastReceivedData with green_request_sent := true } }

/-- The traffic-light sequence run once the node proceeds to green: light to
green, publish green status, countdown (sync messages; inbound messages are
serviced between ticks), light to yellow, advance `nextExpectedSection` to
the own successor and broadcast it, light to red, publish red status,
release the section and clear the data flags. -/
def greenSequence (now : TS) (ms : ℕ) (duration : ℚ) (greenMsgs : List Msg)
    (s : State) : State × List OutMsg :=
  let sGreen := { s with light := { red := false, yellow := false, green := true } }
  let mres := processMsgs now ms greenMsgs sGreen
  let sYellow := { mres.1 with
      light := { red := false, yellow := true, green := false }
      nextExpectedSection := getNextSection ROAD_SECTION_ID }
  let sRed := { sYellow with light := { red := true, yellow := false, green := false } }
  let sFinal := { sRed with
      currentGreenSection := 0
      lastReceivedData := { sRed.lastReceivedData with
          new_data := false, duration_published := false
          green_request_sent := false } }
  (sFinal,
    [OutMsg.greenStatusOut ROAD_SECTION_ID "green"] ++
      countdownSyncs duration.floor.toNat ++ mres.2 ++
      [OutMsg.nextLaneReadyOut (getNextSection ROAD_SECTION_ID) LANE_ID] ++
      [OutMsg.greenStatusOut ROAD_SECTION_ID "red"])

/-- One iteration of the main `loop` of the lane-3 controller.  `waitMsgs`
are the messages serviced during the bounded permission wait, `greenMsgs`
those serviced during the green countdown. -/
def loop_step (now : TS) (ms : ℕ) (waitMsgs greenMsgs : List Msg)
    (s0 : State) : State × List OutMsg :=
  let s := dataTimeoutCheck ms s0
  if s.lastReceivedData.new_data = true then
    let duration := defuzzify s.vehicleCount (isJamSibuk (now.hour : ℤ))
    let outDur := durationOut duration s
    let s1 := afterDurationPublish s
    if 0 < s1.vehicleCount ∧ s1.currentGreenSection = 0 ∧
        ROAD_SECTION_ID = s1.nextExpectedSection ∧
        s1.lastReceivedData.green_request_sent = false then
      let s2 := requestPhase s1
      let outReq := [OutMsg.greenRequestOut ROAD_SECTION_ID
        s2.lastReceivedData.data_received_time]
      let wres := processMsgs now ms waitMsgs s2
      if wres.1.waitingForGreenPermission = true then
        ({ wres.1 with waitingForGreenPermission := false, currentGreenSection := 0 },
         outDur ++ outReq ++ wres.2)
      else if wres.1.currentGreenSection ≠ ROAD_SECTION_ID then
        (wres.1, outDur ++ outReq ++ wres.2)
      else
        let gres := greenSequence now ms duration greenMsgs wres.1
        (gres.1, outDur ++ outReq ++ wres.2 ++ gres.2)
    else if 0 < s1.vehicleCount ∧ s1.currentGreenSection ≠ 0 then
      (s1, outDur)
    else if 0 < s1.vehicleCount ∧ ROAD_SECTION_ID ≠ s1.nextExpectedSection then
      (s1, outDur)
    else if s1.vehicleCount = 0 ∧ s1.currentGreenSection = 0 ∧
        ROAD_SECTION_ID = s1.nextExpectedSection ∧
        s1.lastReceivedData.green_request_sent = false then
      let s2 := { s1 with
          currentGreenSection := ROAD_SECTION_ID
          lastReceivedData := { s1.lastReceivedData with green_request_sent := true } }
      let gres := greenSequence now ms duration greenMsgs s2
      (gres.1, outDur ++ gres.2)
    else
      ({ s1 with lastReceivedData :=
          { s1.lastReceivedData with
              new_data := false, duration_published := false
              green_request_sent := false } }, outDur)
  else
    ({ s with light := { red := true, yellow := false, green := false } }, [])

end Lane3

namespace Lane1

/-- Road section identity of the lane-1 controller. -/
def ROAD_SECTION_ID : ℤ := 1

/-- Rush-hour predicate of the lane-1 controller (`bool isJamSibuk`). -/
def isJamSibuk (jam : ℤ) : Bool :=
  decide ((7 ≤ jam ∧ jam ≤ 9) ∨ (17 ≤ jam ∧ jam ≤ 19))

/-- `struct MqttData` of the lane-1 controller. -/
structure MqttData where
  road_section_id : ℤ
  total_vehicles : ℤ
  timestamp : Option TS
  new_data : Bool
deriving DecidableEq

/-- The mutable globals of the lane-1 controller relevant to coordination. -/
structure State where
  vehicleCount : ℚ
  lastReceivedData : MqttData
  currentGreenSection : ℤ
  greenLightRequested : Bool
  waitingForGreenPermission : Bool
  light : TrafficLight
deriving DecidableEq

/-- Green-request handler of the lane-1 controller: permission is granted
whenever its belief has no current green holder; the lane-1 source keeps no
`nextExpectedSection` variable and performs no turn check. -/
def handleGreenRequest (requesting_section : ℤ) (s : State) :
    State × List OutMsg :=
  if s.currentGreenSection = 0 then
    (s, [OutMsg.greenPermissionOut requesting_section ROAD_SECTION_ID])
  else (s, [])

end Lane1

namespace Sim

/-- Membership function "sedikit" of the console simulation source. -/
def sedikit (x : ℚ) : ℚ :=
  if x ≤ 10 then 1
  else if 10 < x ∧ x ≤ 30 then (30 - x) / 20
  else 0

/-- Membership function "sedang" of the console simulation source. -/
def sedang (x : ℚ) : ℚ :=
  if x ≤ 10 ∨ 50 ≤ x then 0
  else if 10 < x ∧ x ≤ 30 then (x - 10) / 20
  else if 30 < x ∧ x < 50 then (50 - x) / 20
  else 0

/-- Membership function "padat" of the console simulation source. -/
def padat (x : ℚ) : ℚ :=
  if x ≤ 30 then 0
  else if 30 < x ∧ x ≤ 50 then (x - 30) / 20
  else 1

/-- Rush-hour predicate of the console simulation source:
`(jam >= 7 && jam <= 9) || (jam >= 16 && jam <= 19)`. -/
def isJamSibuk (jam : ℤ) : Bool :=
  decide ((7 ≤ jam ∧ jam ≤ 9) ∨ (16 ≤ jam ∧ jam ≤ 19))

end Sim

/-! ## Evaluation lemmas for the membership functions -/

namespace Lane3

theorem sedikit_of_le {x : ℚ} (h : x ≤ 3) : sedikit x = 1 := by
  unfold sedikit; rw [if_pos h]

theorem sedikit_of_mid {x : ℚ} (h1 : 3 < x) (h2 : x < 5) :
    sedikit x = (5 - x) / 2 := by
  unfold sedikit
  rw [if_neg (by intro hc; linarith), if_pos ⟨h1, h2⟩]

theorem sedikit_of_ge {x : ℚ} (h : 5 ≤ x) : sedikit x = 0 := by
  unfold sedikit
  rw [if_neg (by intro hc; linarith), if_neg (by rintro ⟨a, b⟩; linarith)]

theorem sedang_of_le {x : ℚ} (h : x ≤ 3) : sedang x = 0 := by
  unfold sedang; rw [if_pos (Or.inl h)]

theorem sedang_of_low {x : ℚ} (h1 : 3 < x) (h2 : x ≤ 5) :
    sedang x = (x - 3) / 2 := by
  unfold sedang
  rw [if_neg (by rintro (hc | hc) <;> linarith), if_pos ⟨h1, h2⟩]

theorem sedang_of_high {x : ℚ} (h1 : 5 < x) (h2 : x < 10) :
    sedang x = (10 - x) / 5 := by
  unfold sedang
  rw [if_neg (by rintro (hc | hc) <;> linarith),
    if_neg (by rintro ⟨a, b⟩; linarith), if_pos ⟨h1, h2⟩]

theorem sedang_of_ge {x : ℚ} (h : 10 ≤ x) : sedang x = 0 := by
  unfold sedang; rw [if_pos (Or.inr h)]

theorem padat_of_le {x : ℚ} (h : x ≤ 5) : padat x = 0 := by
  unfold padat; rw [if_pos h]

theorem padat_of_mid {x : ℚ} (h1 : 5 < x) (h2 : x < 10) :
    padat x = (x - 5) / 5 := by
  unfold padat
  rw [if_neg (by intro hc; linarith), if_pos ⟨h1, h2⟩]

theorem padat_of_ge {x : ℚ} (h : 10 ≤ x) : padat x = 1 := by
  unfold padat
  rw [if_neg (by intro hc; linarith), if_neg (by rintro ⟨a, b⟩; linarith)]

/-- The three membership degrees of the lane controllers partition unity. -/
theorem membership_sum (x : ℚ) : sedikit x + sedang x + padat x = 1 := by
  rcases le_or_lt x 3 with h1 | h1
  · rw [sedikit_of_le h1, sedang_of_le h1, padat_of_le (by linarith)]
    norm_num
  · rcases lt_or_le x 5 with h2 | h2
    · rw [sedikit_of_mid h1 h2, sedang_of_low h1 (le_of_lt h2),
        padat_of_le (le_of_lt h2)]
      linarith
    · rcases eq_or_lt_of_le h2 with h3 | h3
      · rw [sedikit_of_ge h2, sedang_of_low h1 (le_of_eq h3.symm),
          padat_of_le (le_of_eq h3.symm), ← h3]
        norm_num
      · rcases lt_or_le x 10 with h4 | h4
        · rw [sedikit_of_ge h2, sedang_of_high h3 h4, padat_of_mid h3 h4]
          linarith
        · rw [sedikit_of_ge h2, sedang_of_ge h4, padat_of_ge h4]
          norm_num

theorem sedikit_nonneg (x : ℚ) : 0 ≤ sedikit x := by
  unfold sedikit
  split_ifs with h1 h2
  · norm_num
  · linarith [h2.2]
  · norm_num

theorem sedikit_le_one (x : ℚ) : sedikit x ≤ 1 := by
  unfold sedikit
  split_ifs with h1 h2
  · norm_num
  · linarith [h2.1]
  · norm_num

theorem sedang_nonneg (x : ℚ) : 0 ≤ sedang x := by
  unfold sedang
  split_ifs with h1 h2 h3
  · norm_num
  · linarith [h2.1]
  · linarith [h3.2]
  · norm_num

theorem sedang_le_one (x : ℚ) : sedang x ≤ 1 := by
  unfold sedang
  split_ifs with h1 h2 h3
  · norm_num
  · linarith [h2.2]
  · linarith [h3.1]
  · norm_num

theorem padat_nonneg (x : ℚ) : 0 ≤ padat x := by
  unfold padat
  split_ifs with h1 h2
  · norm_num
  · linarith [h2.1]
  · norm_num

theorem padat_le_one (x : ℚ) : padat x ≤ 1 := by
  unfold padat
  split_ifs with h1 h2
  · norm_num
  · linarith [h2.2]
  · norm_num

end Lane3

namespace Sim

theorem sim_sedikit_of_le {x : ℚ} (h : x ≤ 10) : sedikit x = 1 := by
  unfold sedikit; rw [if_pos h]

theorem sim_sedikit_of_mid {x : ℚ} (h1 : 10 < x) (h2 : x ≤ 30) :
    sedikit x = (30 - x) / 20 := by
  unfold sedikit
  rw [if_neg (by intro hc; linarith), if_pos ⟨h1, h2⟩]

theorem sim_sedikit_of_ge {x : ℚ} (h : 30 < x) : sedikit x = 0 := by
  unfold sedikit
  rw [if_neg (by intro hc; linarith), if_neg (by rintro ⟨a, b⟩; linarith)]

theorem sim_sedang_of_le {x : ℚ} (h : x ≤ 10) : sedang x = 0 := by
  unfold sedang; rw [if_pos (Or.inl h)]

theorem sim_sedang_of_low {x : ℚ} (h1 : 10 < x) (h2 : x ≤ 30) :
    sedang x = (x - 10) / 20 := by
  unfold sedang
  rw [if_neg (by rintro (hc | hc) <;> linarith), if_pos ⟨h1, h2⟩]

theorem sim_sedang_of_high {x : ℚ} (h1 : 30 < x) (h2 : x < 50) :
    sedang x = (50 - x) / 20 := by
  unfold sedang
  rw [if_neg (by rintro (hc | hc) <;> linarith),
    if_neg (by rintro ⟨a, b⟩; linarith), if_pos ⟨h1, h2⟩]

theorem sim_sedang_of_ge {x : ℚ} (h : 50 ≤ x) : sedang x = 0 := by
  unfold sedang; rw [if_pos (Or.inr h)]

theorem sim_padat_of_le {x : ℚ} (h : x ≤ 30) : padat x = 0 := by
  unfold padat; rw [if_pos h]

theorem sim_padat_of_mid {x : ℚ} (h1 : 30 < x) (h2 : x ≤ 50) :
    padat x = (x - 30) / 20 := by
  unfold padat
  rw [if_neg (by intro hc; linarith), if_pos ⟨h1, h2⟩]

theorem sim_padat_of_gt {x : ℚ} (h : 50 < x) : padat x = 1 := by
  unfold padat
  rw [if_neg (by intro hc; linarith), if_neg (by rintro ⟨a, b⟩; linarith)]

/-- The membership degrees of the simulation source also partition unity. -/
theorem sim_membership_sum (x : ℚ) : sedikit x + sedang x + padat x = 1 := by
  rcases le_or_lt x 10 with h1 | h1
  · rw [sim_sedikit_of_le h1, sim_sedang_of_le h1, sim_padat_of_le (by linarith)]
    norm_num
  · rcases le_or_lt x 30 with h2 | h2
    · rw [sim_sedikit_of_mid h1 h2, sim_sedang_of_low h1 h2, sim_padat_of_le h2]
      linarith
    · rcases lt_or_le x 50 with h3 | h3
      · rw [sim_sedikit_of_ge h2, sim_sedang_of_high h2 h3, sim_padat_of_mid h2 (le_of_lt h3)]
        linarith
      · rcases eq_or_lt_of_le h3 with h4 | h4
        · rw [sim_sedikit_of_ge h2, sim_sedang_of_ge h3, sim_padat_of_mid h2 (le_of_eq h4.symm), ← h4]
          norm_num
        · rw [sim_sedikit_of_ge h2, sim_sedang_of_ge h3, sim_padat_of_gt h4]
          norm_num

end Sim

/-! ## Helper lemmas about the lane-3 coordination model -/

namespace Lane3

@[simp] theorem afterDurationPublish_vehicleCount (s : State) :
    (afterDurationPublish s).vehicleCount = s.vehicleCount := by
  unfold afterDurationPublish; split_ifs <;> rfl

@[simp] theorem afterDurationPublish_currentGreenSection (s : State) :
    (afterDurationPublish s).currentGreenSection = s.currentGreenSection := by
  unfold afterDurationPublish; split_ifs <;> rfl

@[simp] theorem afterDurationPublish_nextExpectedSection (s : State) :
    (afterDurationPublish s).nextExpectedSection = s.nextExpectedSection := by
  unfold afterDurationPublish; split_ifs <;> rfl

@[simp] theorem afterDurationPublish_light (s : State) :
    (afterDurationPublish s).light = s.light := by
  unfold afterDurationPublish; split_ifs <;> rfl

@[simp] theorem afterDurationPublish_green_request_sent (s : State) :
    (afterDurationPublish s).lastReceivedData.green_request_sent =
      s.lastReceivedData.green_request_sent := by
  unfold afterDurationPublish; split_ifs <;> rfl

@[simp] theorem afterDurationPublish_new_data (s : State) :
    (afterDurationPublish s).lastReceivedData.new_data =
      s.lastReceivedData.new_data := by
  unfold afterDurationPublish; split_ifs <;> rfl

/-- During the permission wait, any message that leaves
`waitingForGreenPermission` raised also left the previous value raised, did
not touch the light, and did not clear the `new_data` flag. -/
theorem callback_wait_step (now : TS) (ms : ℕ) (m : Msg) (s : State)
    (h : (mqtt_callback now ms m s).1.waitingForGreenPermission = true) :
    s.waitingForGreenPermission = true ∧
    (mqtt_callback now ms m s).1.light = s.light ∧
    (s.lastReceivedData.new_data = true →
      (mqtt_callback now ms m s).1.lastReceivedData.new_data = true) := by
  cases m <;>
    simp only [mqtt_callback, handleVehicleCount, handleGreenStatus,
      handleGreenRequest, handleGreenPermission, handleReset,
      handleNextLaneReady, resetState] at h ⊢ <;>
    first
    | (split_ifs at h ⊢ <;> simp_all)
    | simp_all

theorem processMsgs_waiting_mono (now : TS) (ms : ℕ) (msgs : List Msg)
    (s : State)
    (h : (processMsgs now ms msgs s).1.waitingForGreenPermission = true) :
    s.waitingForGreenPermission = true := by
  induction msgs generalizing s with
  | nil => simpa [processMsgs] using h
  | cons m rest ih =>
    simp only [processMsgs] at h
    exact (callback_wait_step now ms m s (ih _ h)).1

theorem processMsgs_wait_preserves (now : TS) (ms : ℕ) (msgs : List Msg)
    (s : State)
    (h : (processMsgs now ms msgs s).1.waitingForGreenPermission = true) :
    (processMsgs now ms msgs s).1.light = s.light ∧
    (s.lastReceivedData.new_data = true →
      (processMsgs now ms msgs s).1.lastReceivedData.new_data = true) := by
  induction msgs generalizing s with
  | nil => simp [processMsgs]
  | cons m rest ih =>
    simp only [processMsgs] at h ⊢
    have hw : (mqtt_callback now ms m s).1.waitingForGreenPermission = true :=
      processMsgs_waiting_mono now ms rest _ h
    obtain ⟨-, hl, hn⟩ := callback_wait_step now ms m s hw
    obtain ⟨hl2, hn2⟩ := ih _ h
    exact ⟨hl2.trans hl, fun hd => hn2 (hn hd)⟩

/-- The message callback never publishes a green status. -/
theorem callback_no_green (now : TS) (ms : ℕ) (m : Msg) (s : State) :
    ((mqtt_callback now ms m s).2).all (fun o => ! isGreenOn o) = true := by
  cases m <;>
    simp only [mqtt_callback, handleVehicleCount, handleGreenStatus,
      handleGreenRequest, handleGreenPermission, handleReset,
      handleNextLaneReady] <;>
    first
    | (split_ifs <;> simp [isGreenOn])
    | simp [isGreenOn]

theorem processMsgs_no_green (now : TS) (ms : ℕ) (msgs : List Msg)
    (s : State) :
    ((processMsgs now ms msgs s).2).all (fun o => ! isGreenOn o) = true := by
  induction msgs generalizing s with
  | nil => rfl
  | cons m rest ih =>
    simp only [processMsgs, List.all_append, Bool.and_eq_true]
    exact ⟨callback_no_green now ms m s, ih _⟩

theorem durationOut_no_green (d : ℚ) (s : State) :
    (durationOut d s).all (fun o => ! isGreenOn o) = true := by
  unfold durationOut; split_ifs <;> simp [isGreenOn]

/-- The countdown publishes only countdown-sync messages, never a request. -/
theorem countdownSyncs_no_request (n : ℕ) :
    (countdownSyncs n).all (fun o => ! isGreenRequestOut o) = true := by
  induction n with
  | zero => rfl
  | succ k ih =>
    simp only [countdownSyncs, List.all_append, Bool.and_eq_true]
    split_ifs <;> simp_all [isGreenRequestOut]

end Lane3

/-! ## Claim theorems -/

/-- C4: for every vehicle count and rush-hour flag, `defuzzify` returns the
weighted centroid Σ(membershipᵢ × baseDurationᵢ) / Σ(membershipᵢ) over the
three membership degrees, each base duration is strictly larger when the
rush-hour flag is true, and the fixed rush-dependent fallback (30 rush /
20 otherwise) is returned exactly when the sum of memberships is zero. -/
theorem claim_defuzzify_centroid (c : ℚ) (r : Bool) :
    Lane3.defuzzify c r =
      (if Lane3.sedikit c + Lane3.sedang c + Lane3.padat c = 0 then
        (if r then 30 else 20)
       else Lane3.weightedCentroid c r) ∧
    Lane3.durasi_pendek false < Lane3.durasi_pendek true ∧
    Lane3.durasi_sedang false < Lane3.durasi_sedang true ∧
    Lane3.durasi_lama false < Lane3.durasi_lama true := by
  refine ⟨rfl, by norm_num [Lane3.durasi_pendek],
    by norm_num [Lane3.durasi_sedang], by norm_num [Lane3.durasi_lama]⟩

/-- C8 counterexample: at hour 16 the simulation source's rush-hour
predicate is true while both ESP lane controllers' predicates are false, so
the predicates of the different source files are not extensionally equal. -/
theorem claim_rush_hour_counterexample :
    Sim.isJamSibuk 16 = true ∧ Lane3.isJamSibuk 16 = false ∧
    Lane1.isJamSibuk 16 = false ∧ (0 : ℤ) ≤ 16 ∧ (16 : ℤ) ≤ 23 := by decide

/-- C8 (amended): the two ESP lane controllers compute extensionally equal
rush-hour flags, true exactly on the two disjoint inclusive ranges [7,9]
and [17,19]; the simulation source uses the evening range [16,19] and
differs at hour 16. -/
theorem claim_rush_hour_consistency (jam : ℤ) :
    Lane1.isJamSibuk jam = Lane3.isJamSibuk jam ∧
    (Lane3.isJamSibuk jam = true ↔
      ((7 ≤ jam ∧ jam ≤ 9) ∨ (17 ≤ jam ∧ jam ≤ 19))) ∧
    ¬ ((7 ≤ jam ∧ jam ≤ 9) ∧ (17 ≤ jam ∧ jam ≤ 19)) := by
  refine ⟨rfl, ?_, by omega⟩
  simp [Lane3.isJamSibuk]

/-- C9 counterexample: at vehicle count 0 the low membership is 1, not 0,
and `defuzzify 0` returns 15 (rush) / 10 (otherwise), which are not the
documented fallback values 30 / 20. -/
theorem claim_zero_count_counterexample :
    Lane3.sedikit 0 = 1 ∧ Lane3.defuzzify 0 true = 15 ∧
    Lane3.defuzzify 0 false = 10 ∧ (15 : ℚ) ≠ 30 ∧ (10 : ℚ) ≠ 20 := by
  refine ⟨?_, ?_, ?_, by norm_num, by norm_num⟩ <;>
    norm_num [Lane3.defuzzify, Lane3.sedikit, Lane3.sedang, Lane3.padat,
      Lane3.durasi_pendek, Lane3.durasi_sedang, Lane3.durasi_lama]

/-- C9 (amended): at vehicle count 0 the low membership is 1 and the other
two are 0, so `defuzzify 0` returns the short base duration (15 when rush
hour, 10 otherwise); the zero-denominator fallback branch is not taken. -/
theorem claim_zero_count_short_duration (r : Bool) :
    Lane3.defuzzify 0 r = Lane3.durasi_pendek r ∧
    Lane3.sedikit 0 = 1 ∧ Lane3.sedang 0 = 0 ∧ Lane3.padat 0 = 0 := by
  cases r <;>
    norm_num [Lane3.defuzzify, Lane3.sedikit, Lane3.sedang, Lane3.padat,
      Lane3.durasi_pendek, Lane3.durasi_sedang, Lane3.durasi_lama]

/-- C10: for every rational vehicle count (0 and negatives included) the
three membership degrees sum to exactly 1 — for the lane controllers and
for the simulation source alike — and each lies in [0, 1]; consequently the
zero-denominator fallback of `defuzzify` is unreachable and the returned
duration is the convex combination of the three base durations. -/
theorem claim_membership_partition (x : ℚ) (r : Bool) :
    Lane3.sedikit x + Lane3.sedang x + Lane3.padat x = 1 ∧
    Lane3.sedikit x + Lane3.sedang x + Lane3.padat x ≠ 0 ∧
    Lane3.defuzzify x r =
      Lane3.sedikit x * Lane3.durasi_pendek r +
      Lane3.sedang x * Lane3.durasi_sedang r +
      Lane3.padat x * Lane3.durasi_lama r ∧
    0 ≤ Lane3.sedikit x ∧ Lane3.sedikit x ≤ 1 ∧
    0 ≤ Lane3.sedang x ∧ Lane3.sedang x ≤ 1 ∧
    0 ≤ Lane3.padat x ∧ Lane3.padat x ≤ 1 ∧
    Sim.sedikit x + Sim.sedang x + Sim.padat x = 1 := by
  have hs := Lane3.membership_sum x
  have hd : Lane3.defuzzify x r =
      Lane3.sedikit x * Lane3.durasi_pendek r +
      Lane3.sedang x * Lane3.durasi_sedang r +
      Lane3.padat x * Lane3.durasi_lama r := by
    simp only [Lane3.defuzzify]
    rw [hs]
    norm_num
  exact ⟨hs, by rw [hs]; norm_num, hd, Lane3.sedikit_nonneg x,
    Lane3.sedikit_le_one x, Lane3.sedang_nonneg x, Lane3.sedang_le_one x,
    Lane3.padat_nonneg x, Lane3.padat_le_one x, Sim.sim_membership_sum x⟩

/-- Lane-1 peer state with no current green holder, used in C1. -/
def c1Lane1State : Lane1.State :=
  ⟨0, ⟨0, 0, none, false⟩, 0, false, false, ⟨true, false, false⟩⟩

/-- Lane-3 peer state expecting section 1, used in C1. -/
def c1Lane3State : Lane3.State :=
  ⟨0, ⟨0, 0, none, false, false, false, 0⟩, 0, false, false, 1,
    ⟨true, false, false⟩⟩

/-- C1 counterexample: with no believed green holder and lane 1 expected
next, a request from section 2 — not the expected lane on any belief — is
denied by the lane-3 controller but granted by the lane-1 controller, which
performs no turn check; so not every peer denies. -/
theorem claim_grant_rule_counterexample :
    c1Lane3State.nextExpectedSection = 1 ∧ (2 : ℤ) ≠ 1 ∧
    (Lane3.handleGreenRequest 2 c1Lane3State).2 = [] ∧
    (Lane1.handleGreenRequest 2 c1Lane1State).2 =
      [OutMsg.greenPermissionOut 2 1] := by decide

/-- C1 (amended): the lane-3 controller grants a request exactly when its
belief has no green holder, the requester equals its own
`nextExpectedSection`, and it does not itself hold eligible fresh data for
the expected turn; its state is unchanged either way.  (The lane-1
controller grants on the no-green-holder condition alone.) -/
theorem claim_grant_rule_lane3 (req : ℤ) (s : Lane3.State) :
    Lane3.handleGreenRequest req s =
      (s,
       if s.currentGreenSection = 0 ∧ req = s.nextExpectedSection ∧
          ¬ (s.lastReceivedData.new_data = true ∧ 0 < s.vehicleCount ∧
             Lane3.ROAD_SECTION_ID = s.nextExpectedSection) then
         [OutMsg.greenPermissionOut req Lane3.ROAD_SECTION_ID]
       else []) := by
  unfold Lane3.handleGreenRequest
  split_ifs <;> first | rfl | tauto

/-- Idle lane-3 state expecting section 1, used in C3's counterexample. -/
def c3CounterState : Lane3.State :=
  ⟨0, ⟨0, 0, none, false, false, false, 0⟩, 0, false, false, 1,
    ⟨true, false, false⟩⟩

/-- C3 counterexample: delivering a (replayed or arbitrary) next-lane-ready
message carrying value 3 to a node expecting 1 jumps `nextExpectedSection`
from 1 to 3 — not the cyclic successor 2 — while no lane left GREEN
(`currentGreenSection` stays 0). -/
theorem claim_next_expected_counterexample :
    c3CounterState.nextExpectedSection = 1 ∧
    c3CounterState.currentGreenSection = 0 ∧
    (Lane3.mqtt_callback ⟨0, 10, 0, 0⟩ 0 (Msg.nextLaneReady 3 2)
        c3CounterState).1.nextExpectedSection = 3 ∧
    (Lane3.mqtt_callback ⟨0, 10, 0, 0⟩ 0 (Msg.nextLaneReady 3 2)
        c3CounterState).1.currentGreenSection = 0 ∧
    Lane3.getNextSection 1 = 2 ∧ (3 : ℤ) ≠ 2 := by decide

/-- C3 (amended): a green-status message changes `nextExpectedSection` only
when it reports the believed green section turning red, and then sets it to
the cyclic successor of that section while clearing the green belief; the
node's own yellow transition always sets the successor of its own lane.
(The next-lane-ready handler, by contrast, adopts the received value
unconditionally.) -/
theorem claim_next_expected_advance (sec : ℤ) (st : String) (s : Lane3.State)
    (h : (Lane3.handleGreenStatus sec st s).1.nextExpectedSection ≠
      s.nextExpectedSection) :
    (st = "red" ∧ s.currentGreenSection = sec ∧
      (Lane3.handleGreenStatus sec st s).1.nextExpectedSection =
        Lane3.getNextSection sec ∧
      (Lane3.handleGreenStatus sec st s).1.currentGreenSection = 0) ∧
    ∀ (now : TS) (ms : ℕ) (d : ℚ) (gm : List Msg) (s2 : Lane3.State),
      (Lane3.greenSequence now ms d gm s2).1.nextExpectedSection =
        Lane3.getNextSection Lane3.ROAD_SECTION_ID := by
  constructor
  · unfold Lane3.handleGreenStatus at h ⊢
    split_ifs at h ⊢ with h1 h2
    · exact absurd rfl h
    · exact ⟨h2.1, h2.2, rfl, rfl⟩
    · exact absurd rfl h
  · intro now ms d gm s2
    rfl

/-- Lane-3 state believing section 2 is green, used in C3's witness. -/
def c3WitnessState : Lane3.State :=
  ⟨0, ⟨0, 0, none, false, false, false, 0⟩, 2, false, false, 1,
    ⟨true, false, false⟩⟩

/-- Witness for C3: a red status from the believed-green section 2 advances
`nextExpectedSection` to its cyclic successor 3. -/
theorem claim_next_expected_advance_witness :
    ((Lane3.handleGreenStatus 2 "red" c3WitnessState).1.nextExpectedSection ≠
      c3WitnessState.nextExpectedSection) ∧
    ((("red" : String) = "red" ∧ c3WitnessState.currentGreenSection = 2 ∧
      (Lane3.handleGreenStatus 2 "red" c3WitnessState).1.nextExpectedSection =
        Lane3.getNextSection 2 ∧
      (Lane3.handleGreenStatus 2 "red" c3WitnessState).1.currentGreenSection = 0) ∧
     ∀ (now : TS) (ms : ℕ) (d : ℚ) (gm : List Msg) (s2 : Lane3.State),
      (Lane3.greenSequence now ms d gm s2).1.nextExpectedSection =
        Lane3.getNextSection Lane3.ROAD_SECTION_ID) :=
  ⟨by decide, claim_next_expected_advance 2 "red" c3WitnessState (by decide)⟩

/-- C5 (amended): when the observation carries a timestamp whose
hour-and-minute distance from the current time — computed modulo one day,
as the handler computes it — exceeds 2 minutes, the handler returns with no
state change and no publication, regardless of the vehicle count. -/
theorem claim_stale_rejected (now : TS) (ms : ℕ) (rid tv : ℤ) (t : TS)
    (s : Lane3.State) (h : Lane3.timeDiffMinutes t now > 2) :
    Lane3.handleVehicleCount now ms rid tv (some t) s = (s, []) := by
  unfold Lane3.handleVehicleCount
  split_ifs with h1 h2 h3 <;> try rfl
  exact absurd (decide_eq_true h) h2

/-- Fresh idle lane-3 state used in C5's witness. -/
def c5WitnessState : Lane3.State :=
  ⟨0, ⟨0, 0, none, false, false, false, 0⟩, 0, false, false, 1,
    ⟨true, false, false⟩⟩

/-- Witness for C5: a message stamped 10:00 arriving at 10:10 (10 minutes
old) is dropped with no state change. -/
theorem claim_stale_rejected_witness :
    Lane3.timeDiffMinutes ⟨0, 10, 0, 0⟩ ⟨0, 10, 10, 0⟩ > 2 ∧
    Lane3.handleVehicleCount ⟨0, 10, 10, 0⟩ 0 3 7 (some ⟨0, 10, 0, 0⟩)
      c5WitnessState = (c5WitnessState, []) :=
  ⟨by decide, claim_stale_rejected _ _ _ _ _ _ (by decide)⟩

/-- Fresh idle lane-3 state used in C5's counterexample. -/
def c5CounterState : Lane3.State :=
  ⟨0, ⟨0, 0, none, false, false, false, 0⟩, 0, false, false, 1,
    ⟨true, false, false⟩⟩

/-- C5 counterexample: an observation exactly 24 hours old — 1440 minutes,
far beyond the 2-minute threshold — passes the hour-and-minute staleness
check (which ignores the date) and is accepted, updating the stored data. -/
theorem claim_stale_counterexample :
    ageMinutes ⟨0, 10, 0, 0⟩ ⟨1, 10, 0, 0⟩ = 1440 ∧ (1440 : ℤ) > 2 ∧
    c5CounterState.lastReceivedData.new_data = false ∧
    (Lane3.handleVehicleCount ⟨1, 10, 0, 0⟩ 50 3 7 (some ⟨0, 10, 0, 0⟩)
        c5CounterState).1.lastReceivedData.new_data = true ∧
    (Lane3.handleVehicleCount ⟨1, 10, 0, 0⟩ 50 3 7 (some ⟨0, 10, 0, 0⟩)
        c5CounterState).1.lastReceivedData.total_vehicles = 7 := by decide

/-- C6 (amended): while the last accepted observation is still pending
(`new_data` raised), re-delivering the identical (lane, count, timestamp)
triple leaves every state component unchanged and publishes nothing. -/
theorem claim_duplicate_suppressed (now : TS) (ms : ℕ) (rid tv : ℤ)
    (t : Option TS) (s : Lane3.State)
    (h1 : s.lastReceivedData.total_vehicles = tv)
    (h2 : s.lastReceivedData.road_section_id = rid)
    (h3 : s.lastReceivedData.timestamp = t)
    (h4 : s.lastReceivedData.new_data = true) :
    Lane3.handleVehicleCount now ms rid tv t s = (s, []) := by
  unfold Lane3.handleVehicleCount
  split_ifs with g1 g2 g3 <;> try rfl
  exact absurd ⟨h1, h2, h3, h4⟩ g3

/-- Lane-3 state holding a freshly accepted observation, used in C6's
witness. -/
def c6WitnessState : Lane3.State :=
  ⟨7, ⟨3, 7, some ⟨0, 10, 0, 0⟩, true, false, false, 5⟩, 0, false, false, 1,
    ⟨true, false, false⟩⟩

/-- Witness for C6: re-delivering the pending observation (3, 7, 10:00)
changes nothing and publishes nothing. -/
theorem claim_duplicate_suppressed_witness :
    c6WitnessState.lastReceivedData.total_vehicles = 7 ∧
    c6WitnessState.lastReceivedData.road_section_id = 3 ∧
    c6WitnessState.lastReceivedData.timestamp = some ⟨0, 10, 0, 0⟩ ∧
    c6WitnessState.lastReceivedData.new_data = true ∧
    Lane3.handleVehicleCount ⟨0, 10, 1, 0⟩ 42 3 7 (some ⟨0, 10, 0, 0⟩)
      c6WitnessState = (c6WitnessState, []) :=
  ⟨by decide, by decide, by decide, by decide,
   claim_duplicate_suppressed _ _ _ _ _ _ (by decide) (by decide) (by decide)
     (by decide)⟩

/-- Lane-3 state whose accepted observation has been consumed by a completed
cycle (`new_data = false`), used in C6's counterexample. -/
def c6CounterState : Lane3.State :=
  ⟨7, ⟨3, 7, some ⟨0, 10, 0, 0⟩, false, false, false, 0⟩, 0, false, false, 1,
    ⟨true, false, false⟩⟩

/-- C6 counterexample: once the accepted observation has been consumed
(`new_data = false`), re-delivering the very same already-accepted triple is
accepted again — the duplicate guard requires `new_data` — and the state
changes (`new_data` back to true, receive time updated). -/
theorem claim_duplicate_counterexample :
    c6CounterState.lastReceivedData.total_vehicles = 7 ∧
    c6CounterState.lastReceivedData.road_section_id = 3 ∧
    c6CounterState.lastReceivedData.timestamp = some ⟨0, 10, 0, 0⟩ ∧
    c6CounterState.lastReceivedData.new_data = false ∧
    (Lane3.handleVehicleCount ⟨0, 10, 1, 0⟩ 99 3 7 (some ⟨0, 10, 0, 0⟩)
        c6CounterState).1.lastReceivedData.new_data = true ∧
    (Lane3.handleVehicleCount ⟨0, 10, 1, 0⟩ 99 3 7 (some ⟨0, 10, 0, 0⟩)
        c6CounterState).1.lastReceivedData.data_received_time = 99 := by decide

/-- C7 (amended): a valid reset command, in whatever state it is handled,
immediately reinitializes everything: no green holder, next expected lane 1,
pending observation and request flags discarded, light red.  (When handled
mid-GREEN, the interrupted sequence afterwards resumes and overwrites part
of this — see the counterexample.) -/
theorem claim_reset_reinitializes (now : TS) (ms : ℕ) (cmd : String)
    (s : Lane3.State) (h : cmd = "true" ∨ cmd = "1" ∨ cmd = "reset") :
    Lane3.mqtt_callback now ms (Msg.resetMsg cmd) s = (Lane3.resetState, []) ∧
    Lane3.resetState.currentGreenSection = 0 ∧
    Lane3.resetState.nextExpectedSection = 1 ∧
    Lane3.resetState.lastReceivedData.new_data = false ∧
    Lane3.resetState.lastReceivedData.green_request_sent = false ∧
    Lane3.resetState.waitingForGreenPermission = false ∧
    Lane3.resetState.greenLightRequested = false ∧
    Lane3.resetState.vehicleCount = 0 ∧
    Lane3.resetState.light = ⟨true, false, false⟩ := by
  refine ⟨?_, rfl, rfl, rfl, rfl, rfl, rfl, rfl, rfl⟩
  simp only [Lane3.mqtt_callback, Lane3.handleReset]
  rw [if_pos h]

/-- Mid-cycle lane-3 state used in C7's witness. -/
def c7WitnessState : Lane3.State :=
  ⟨9, ⟨3, 9, some ⟨0, 10, 0, 0⟩, true, true, true, 77⟩, 3, true, true, 3,
    ⟨false, false, true⟩⟩

/-- Witness for C7: the command "reset" applied to a mid-cycle state yields
exactly the reinitialized state. -/
theorem claim_reset_reinitializes_witness :
    ((("reset" : String) = "true" ∨ ("reset" : String) = "1" ∨
      ("reset" : String) = "reset") ∧
     Lane3.mqtt_callback ⟨0, 10, 0, 0⟩ 5 (Msg.resetMsg "reset") c7WitnessState =
       (Lane3.resetState, []) ∧
     Lane3.resetState.currentGreenSection = 0 ∧
     Lane3.resetState.nextExpectedSection = 1 ∧
     Lane3.resetState.lastReceivedData.new_data = false ∧
     Lane3.resetState.lastReceivedData.green_request_sent = false ∧
     Lane3.resetState.waitingForGreenPermission = false ∧
     Lane3.resetState.greenLightRequested = false ∧
     Lane3.resetState.vehicleCount = 0 ∧
     Lane3.resetState.light = ⟨true, false, false⟩) :=
  ⟨by decide,
   (claim_reset_reinitializes ⟨0, 10, 0, 0⟩ 5 "reset" c7WitnessState
     (by decide)).1,
   rfl, rfl, rfl, rfl, rfl, rfl, rfl, rfl⟩

/-- Lane-3 state about to run its zero-vehicle green turn, used in C7's
counterexample. -/
def c7CounterState : Lane3.State :=
  ⟨0, ⟨3, 0, some ⟨0, 10, 0, 0⟩, true, false, false, 0⟩, 0, false, false, 3,
    ⟨true, false, false⟩⟩

/-- C7 counterexample: a reset serviced during the green countdown is
followed by the resumed traffic-light sequence, which afterwards advances
`nextExpectedSection` to 4; the iteration therefore does not end in the
reset state with `nextExpectedSection = 1`. -/
theorem claim_reset_counterexample :
    (Lane3.loop_step ⟨0, 10, 0, 0⟩ 1000 [] [Msg.resetMsg "true"]
        c7CounterState).1.nextExpectedSection = 4 ∧
    Lane3.resetState.nextExpectedSection = 1 ∧ (4 : ℤ) ≠ 1 := by decide

/-- C2 (amended): a node that broadcast a green request and receives no
grant (nor any other wait-ending message) within the bounded wait releases
its optimistic claim — `currentGreenSection` back to 0 — clears the wait
flag, keeps its light and its pending data for a later retry, and publishes
no green status in that iteration.  (The no-green-without-confirmation part
of the original claim fails on the zero-vehicle path — see the
counterexample.) -/
theorem claim_request_timeout_releases (now : TS) (ms : ℕ)
    (waitMsgs greenMsgs : List Msg) (s : Lane3.State)
    (hnd : s.lastReceivedData.new_data = true)
    (hto : ¬ ms - s.lastReceivedData.data_received_time > 120000)
    (hvc : 0 < s.vehicleCount)
    (hg : s.currentGreenSection = 0)
    (hnx : Lane3.ROAD_SECTION_ID = s.nextExpectedSection)
    (hrs : s.lastReceivedData.green_request_sent = false)
    (hwait : (Lane3.processMsgs now ms waitMsgs
        (Lane3.requestPhase (Lane3.afterDurationPublish s))).1.waitingForGreenPermission
        = true) :
    (Lane3.loop_step now ms waitMsgs greenMsgs s).1.currentGreenSection = 0 ∧
    (Lane3.loop_step now ms waitMsgs greenMsgs s).1.waitingForGreenPermission = false ∧
    (Lane3.loop_step now ms waitMsgs greenMsgs s).1.lastReceivedData.new_data = true ∧
    (Lane3.loop_step now ms waitMsgs greenMsgs s).1.light = s.light ∧
    ((Lane3.loop_step now ms waitMsgs greenMsgs s).2).all
      (fun o => ! isGreenOn o) = true := by
  have hdt : Lane3.dataTimeoutCheck ms s = s := by
    unfold Lane3.dataTimeoutCheck; rw [if_neg hto]
  have hcond : 0 < (Lane3.afterDurationPublish s).vehicleCount ∧
      (Lane3.afterDurationPublish s).currentGreenSection = 0 ∧
      Lane3.ROAD_SECTION_ID = (Lane3.afterDurationPublish s).nextExpectedSection ∧
      (Lane3.afterDurationPublish s).lastReceivedData.green_request_sent = false := by
    refine ⟨by simpa using hvc, by simpa using hg, by simpa using hnx,
      by simpa using hrs⟩
  have hp := Lane3.processMsgs_wait_preserves now ms waitMsgs
    (Lane3.requestPhase (Lane3.afterDurationPublish s)) hwait
  have hnd2 : (Lane3.requestPhase (Lane3.afterDurationPublish s)).lastReceivedData.new_data
      = true := by
    simpa [Lane3.requestPhase] using hnd
  have hlight : (Lane3.requestPhase (Lane3.afterDurationPublish s)).light = s.light := by
    simp [Lane3.requestPhase]
  simp only [Lane3.loop_step, hdt]
  rw [if_pos hnd, if_pos hcond, if_pos hwait]
  refine ⟨rfl, rfl, hp.2 hnd2, hp.1.trans hlight, ?_⟩
  simp only [List.all_append, Bool.and_eq_true]
  exact ⟨⟨Lane3.durationOut_no_green _ _, by simp [isGreenOn]⟩,
    Lane3.processMsgs_no_green now ms waitMsgs _⟩

/-- Lane-3 state with five vehicles and the turn, used in C2's witness. -/
def c2WitnessState : Lane3.State :=
  ⟨5, ⟨3, 5, some ⟨0, 10, 0, 0⟩, true, false, false, 0⟩, 0, false, false, 3,
    ⟨true, false, false⟩⟩

/-- Witness for C2: with no message arriving during the wait, the request
times out, the claim is released and no green status is published. -/
theorem claim_request_timeout_releases_witness :
    c2WitnessState.lastReceivedData.new_data = true ∧
    ¬ (1000 : ℕ) - c2WitnessState.lastReceivedData.data_received_time > 120000 ∧
    0 < c2WitnessState.vehicleCount ∧
    c2WitnessState.currentGreenSection = 0 ∧
    Lane3.ROAD_SECTION_ID = c2WitnessState.nextExpectedSection ∧
    c2WitnessState.lastReceivedData.green_request_sent = false ∧
    (Lane3.processMsgs ⟨0, 10, 0, 0⟩ 1000 []
        (Lane3.requestPhase (Lane3.afterDurationPublish c2WitnessState))).1.waitingForGreenPermission
      = true ∧
    ((Lane3.loop_step ⟨0, 10, 0, 0⟩ 1000 [] [] c2WitnessState).1.currentGreenSection = 0 ∧
     (Lane3.loop_step ⟨0, 10, 0, 0⟩ 1000 [] [] c2WitnessState).1.waitingForGreenPermission = false ∧
     (Lane3.loop_step ⟨0, 10, 0, 0⟩ 1000 [] [] c2WitnessState).1.lastReceivedData.new_data = true ∧
     (Lane3.loop_step ⟨0, 10, 0, 0⟩ 1000 [] [] c2WitnessState).1.light = c2WitnessState.light ∧
     ((Lane3.loop_step ⟨0, 10, 0, 0⟩ 1000 [] [] c2WitnessState).2).all
       (fun o => ! isGreenOn o) = true) :=
  ⟨by decide, by decide, by decide, by decide, by decide, by decide, by decide,
   claim_request_timeout_releases ⟨0, 10, 0, 0⟩ 1000 [] [] c2WitnessState
     (by decide) (by decide) (by decide) (by decide) (by decide) (by decide)
     (by decide)⟩

/-- Lane-3 state with zero vehicles and the turn, used in C2's
counterexample. -/
def c2CounterState : Lane3.State :=
  ⟨0, ⟨3, 0, some ⟨0, 10, 0, 0⟩, true, false, false, 0⟩, 0, false, false, 3,
    ⟨true, false, false⟩⟩

/-- C2 counterexample: on the zero-vehicle path the node publishes a green
status — it turns green — although it serviced no inbound message at all
(so no grant was received) and it never even broadcast a green request. -/
theorem claim_unconfirmed_green_counterexample :
    OutMsg.greenStatusOut 3 "green" ∈
      (Lane3.loop_step ⟨0, 10, 0, 0⟩ 1000 [] [] c2CounterState).2 ∧
    ((Lane3.loop_step ⟨0, 10, 0, 0⟩ 1000 [] [] c2CounterState).2).all
      (fun o => ! isGreenRequestOut o) = true := by
  have he : (Lane3.loop_step ⟨0, 10, 0, 0⟩ 1000 [] [] c2CounterState).2 =
      [OutMsg.durationMsg 3 0 (Lane3.defuzzify 0 (Lane3.isJamSibuk 10))
        (some ⟨0, 10, 0, 0⟩)] ++
      ([OutMsg.greenStatusOut 3 "green"] ++
        Lane3.countdownSyncs
          (Lane3.defuzzify 0 (Lane3.isJamSibuk 10)).floor.toNat ++ [] ++
        [OutMsg.nextLaneReadyOut 4 3] ++
        [OutMsg.greenStatusOut 3 "red"]) := rfl
  constructor
  · rw [he]; simp
  · rw [he]
    simp only [List.all_append, Bool.and_eq_true]
    exact ⟨rfl, ⟨⟨⟨rfl, Lane3.countdownSyncs_no_request _⟩, rfl⟩, rfl⟩, rfl⟩
